import Mathlib

/-!
Shallow embedding of the giveaway bot's prize ledger, snapshot store and
lifecycle command handlers (`src/db.py`, `src/giveaway_bot.py`), together
with theorems settling the frozen claims about them.

Machine conventions: SQL `NULL` is `Option.none`; timestamps are `Nat`
instants supplied explicitly (`NOW()` / `CURRENT_TIMESTAMP` become a `now`
argument); tables are row lists in insertion order; random byte strings and
random sampling are explicit parameters constrained by the contract of the
library primitive they replace.
-/

namespace GiftGiver

/-- A row of the `prize_claims` table (`db.py`, `init_database`):
`(contest_id, position, winner_user_id, claimed_at, security_code)`. -/
structure PrizeClaimRow where
  contestId : Int
  position : Nat
  winnerUserId : Int
  claimedAt : Option Nat
  securityCode : String
deriving Repr, DecidableEq

/-- The column default of `prize_claims.claimed_at` in the DDL of
`db.py` `init_database`: `claimed_at TIMESTAMP DEFAULT CURRENT_TIMESTAMP`.
A row inserted without an explicit `claimed_at` value receives the
current timestamp, not `NULL`. -/
def claimedAtColumnDefault (now : Nat) : Option Nat :=
  some now

/-- Lowercase hexadecimal digit for a value below 16, as produced by
Python's `bytes.hex` (used by `secrets.token_hex`). -/
def hexDigit (n : Nat) : Char :=
  if n < 10 then Char.ofNat (48 + n) else Char.ofNat (97 + (n - 10))

/-- The two hex characters encoding one byte. -/
def byteHexChars (b : Nat) : List Char :=
  [hexDigit (b / 16), hexDigit (b % 16)]

/-- Character list underlying `bytes.hex`: each byte becomes two lowercase
hex digits, in order. -/
def tokenHexChars : List Nat → List Char
  | [] => []
  | b :: bs => byteHexChars b ++ tokenHexChars bs

/-- `secrets.token_hex` on an explicit byte string: the random bytes are a
parameter, the hex encoding is computed.  `assign_winner_to_prize_position`
calls this with 16 bytes from the OS random source. -/
def tokenHex (bytes : List Nat) : String :=
  String.mk (tokenHexChars bytes)

/-- Is a character a lowercase hexadecimal digit? -/
def isLowerHexDigit (c : Char) : Bool :=
  (48 ≤ c.toNat && c.toNat ≤ 57) || (97 ≤ c.toNat && c.toNat ≤ 102)

/-- `db.py` `assign_winner_to_prize_position`: INSERT INTO `prize_claims`
`(contest_id, position, winner_user_id, security_code)` with
`security_code = secrets.token_hex(16)`.  `claimed_at` is omitted from the
column list, so it takes the column default (`claimedAtColumnDefault`).
The fresh random bytes are passed explicitly. -/
def assign_winner_to_prize_position (db : List PrizeClaimRow) (now : Nat)
    (contestId : Int) (position : Nat) (userId : Int) (randomBytes : List Nat) :
    List PrizeClaimRow :=
  db ++ [{ contestId := contestId
           position := position
           winnerUserId := userId
           claimedAt := claimedAtColumnDefault now
           securityCode := tokenHex randomBytes }]

/-- The WHERE clause of `mark_prize_as_claimed`:
`contest_id = %s AND winner_user_id = %s AND claimed_at IS NULL`. -/
def unclaimedMatch (contestId userId : Int) (r : PrizeClaimRow) : Bool :=
  r.contestId == contestId && r.winnerUserId == userId && r.claimedAt == none

/-- `db.py` `mark_prize_as_claimed`: conditional UPDATE setting
`claimed_at = NOW()` on rows matched by `unclaimedMatch`; returns the new
table and `True` iff the row count of the update was nonzero. -/
def mark_prize_as_claimed (db : List PrizeClaimRow) (now : Nat) (contestId userId : Int) :
    List PrizeClaimRow × Bool :=
  if (db.filter (unclaimedMatch contestId userId)).length == 0 then
    (db, false)
  else
    (db.map (fun r => if unclaimedMatch contestId userId r then
        { r with claimedAt := some now } else r), true)

/-- A row of the `contest_prizes` table (`db.py`, `init_database`):
`(contest_id, position, prize_name, prize_type, prize_value)`. -/
structure ContestPrizeRow where
  contestId : Int
  position : Nat
  prizeName : String
  prizeType : String
  prizeValue : String
deriving Repr, DecidableEq

/-- Python `str.startswith`, on the character sequences of the strings. -/
def strStartsWith (s pre : String) : Bool :=
  pre.data.isPrefixOf s.data

/-- `giveaway_bot.py` `is_safe_link`: empty strings are not links; otherwise
a link is safe iff it starts with one of the prefixes recognized by the
`startswith` tuple. -/
def is_safe_link (link : String) : Bool :=
  if link.isEmpty then false
  else strStartsWith link "https://" || strStartsWith link "t.me/" || strStartsWith link "tg://"

/-- The `prize_type` chosen by `db.py` `create_contest_prizes`:
`'link' if is_safe_link(prize) else 'text'`. -/
def prizeTypeFor (prize : String) : String :=
  if is_safe_link prize then "link" else "text"

/-- `db.py` `create_contest_prizes`: one `contest_prizes` row per prize,
position = 1-based index (`enumerate(prizes_list, 1)`), value stored
verbatim, type classified by `is_safe_link`. -/
def create_contest_prizes (contestId : Int) (prizesList : List String) : List ContestPrizeRow :=
  prizesList.enum.map (fun p =>
    { contestId := contestId
      position := p.1 + 1
      prizeName := p.2
      prizeType := prizeTypeFor p.2
      prizeValue := p.2 })

/-- Ordering of `get_latest_unclaimed_prize_for_user`:
`ORDER BY pc.contest_id DESC, cp.position ASC`.  `a` sorts strictly before
`b` iff this returns `true`. -/
def claimOrderBefore (a b : ContestPrizeRow × PrizeClaimRow) : Bool :=
  b.2.contestId < a.2.contestId || (a.2.contestId == b.2.contestId && a.1.position < b.1.position)

/-- `LIMIT 1` over the ordered result set: the least element under
`claimOrderBefore`, or `none` when the set is empty. -/
def firstUnderOrder : List (ContestPrizeRow × PrizeClaimRow) →
    Option (ContestPrizeRow × PrizeClaimRow)
  | [] => none
  | x :: xs => some (xs.foldl (fun best y => if claimOrderBefore y best then y else best) x)

/-- `db.py` `get_latest_unclaimed_prize_for_user`: join `contest_prizes`
with `prize_claims` on `(contest_id, position)`, keep rows with the given
winner and `claimed_at IS NULL`, order by contest id descending then
position ascending, return the first row or `None`. -/
def get_latest_unclaimed_prize_for_user (prizes : List ContestPrizeRow)
    (claims : List PrizeClaimRow) (userId : Int) :
    Option (ContestPrizeRow × PrizeClaimRow) :=
  firstUnderOrder <| (claims.filter
      (fun pc => pc.winnerUserId == userId && pc.claimedAt == none)).filterMap
    (fun pc => (prizes.find? (fun cp =>
        cp.contestId == pc.contestId && cp.position == pc.position)).map (fun cp => (cp, pc)))

/-- Replies of the `/claim` private-chat command handler. -/
inductive ClaimReply where
  | usePrivateChat
  | noUnclaimedPrizes
  | errorClaiming
  | success (position : Nat) (prizeName prizeType prizeValue : String)
deriving Repr, DecidableEq

/-- `giveaway_bot.py` `claim_command`: outside a private chat, redirect;
otherwise look up the latest unclaimed prize (reply `noUnclaimedPrizes`
when there is none), run the conditional update `mark_prize_as_claimed`
(reply `errorClaiming` when it touched zero rows), and on success reply
with the slot's position, name, type and value. -/
def claim_command (prizes : List ContestPrizeRow) (claims : List PrizeClaimRow)
    (userId : Int) (now : Nat) (isPrivateChat : Bool) : List PrizeClaimRow × ClaimReply :=
  if !isPrivateChat then
    (claims, .usePrivateChat)
  else
    match get_latest_unclaimed_prize_for_user prizes claims userId with
    | none => (claims, .noUnclaimedPrizes)
    | some (cp, pc) =>
      let r := mark_prize_as_claimed claims now pc.contestId userId
      if r.2 then (r.1, .success cp.position cp.prizeName cp.prizeType cp.prizeValue)
      else (r.1, .errorClaiming)

/-- A JSON value, the wire format of the TEXT columns of `giveaway_state`.
`json.dumps` and `json.loads` are inverse on well-formed text, so the
stored TEXT is represented by the JSON value it denotes. -/
inductive Json where
  | null : Json
  | bool (b : Bool) : Json
  | int (n : Int) : Json
  | str (s : String) : Json
  | arr (xs : List Json) : Json
  | obj (fields : List (String × Json)) : Json

/-- A Python dict key as used for the in-memory `winners` map: the bot keys
it by integer user id (`winners[winner.id] = prize_name`), while JSON
object keys are strings, so a reloaded map is keyed by strings. -/
inductive PyKey where
  | intKey (n : Int) : PyKey
  | strKey (s : String) : PyKey
deriving Repr, DecidableEq

/-- The string a `PyKey` becomes as a JSON object key under `json.dumps`
(integer keys are written in decimal). -/
def pyKeyString : PyKey → String
  | .intKey n => toString n
  | .strKey s => s

/-- The participant profile fields kept by `serialize_user` in
`giveaway_bot.py` / `db.py`; a dict whose optional fields may be absent is
represented by `Option` fields directly, so `deserialize_user`'s
drop-`None`-fields-then-rebuild is the identity on this representation. -/
structure UserRec where
  id : Int
  firstName : String
  lastName : Option String
  username : Option String
  languageCode : Option String
  isBot : Bool
deriving Repr, DecidableEq

/-- The module-level mutable giveaway state of `giveaway_bot.py`:
`participants` (dict user id → user, insertion order), `winners`
(dict user id → prize name; integer-keyed when built in memory by
`end_giveaway`), `claimed_winners` (set of user ids, listed in iteration
order), the announcement coordinates and the active contest id. -/
structure EngineState where
  participants : List (Int × UserRec)
  winners : List (PyKey × String)
  claimedWinners : List Int
  giveawayMessageId : Option Int
  giveawayChatId : Option Int
  giveawayHasImage : Bool
  currentContestId : Option Int
deriving Repr, DecidableEq

/-- The empty/default engine state: the value every global is reset to when
no snapshot exists or loading fails. -/
def emptyEngineState : EngineState :=
  { participants := []
    winners := []
    claimedWinners := []
    giveawayMessageId := none
    giveawayChatId := none
    giveawayHasImage := false
    currentContestId := none }

/-- The single `giveaway_state` row: three nullable TEXT columns holding
JSON, plus the scalar columns. -/
structure GiveawayStateRow where
  participants : Option Json
  winners : Option Json
  claimedWinners : Option Json
  giveawayMessageId : Option Int
  giveawayChatId : Option Int
  giveawayHasImage : Option Bool
  currentContestId : Option Int

/-- `None` encoding of an optional string field in `serialize_user`. -/
def encodeOptStr : Option String → Json
  | none => .null
  | some s => .str s

/-- `serialize_user`: the six-field dict written into the participants
JSON array. -/
def encodeUser (u : UserRec) : Json :=
  .obj [("id", .int u.id),
        ("first_name", .str u.firstName),
        ("last_name", encodeOptStr u.lastName),
        ("username", encodeOptStr u.username),
        ("language_code", encodeOptStr u.languageCode),
        ("is_bot", .bool u.isBot)]

/-- First field of a JSON object with the given key, as dict lookup. -/
def jsonField (fields : List (String × Json)) (k : String) : Option Json :=
  (fields.find? (fun f => f.1 == k)).map (fun f => f.2)

/-- Read an optional string field: absent or `null` both mean `None`
(`deserialize_user` drops `None` entries before rebuilding the user). -/
def decodeOptStrField (fields : List (String × Json)) (k : String) : Option String :=
  match jsonField fields k with
  | some (.str s) => some s
  | _ => none

/-- Rebuild one user from its serialized dict, as the
`u["id"]` access plus `deserialize_user(u)` step of `load_state_from_db`;
`none` models the exception raised on a value of the wrong shape. -/
def decodeUser : Json → Option UserRec
  | .obj fields =>
    match jsonField fields "id", jsonField fields "first_name", jsonField fields "is_bot" with
    | some (.int i), some (.str fn), some (.bool b) =>
      some { id := i
             firstName := fn
             lastName := decodeOptStrField fields "last_name"
             username := decodeOptStrField fields "username"
             languageCode := decodeOptStrField fields "language_code"
             isBot := b }
    | _, _, _ => none
  | _ => none

/-- The `participants` deserialization of `load_state_from_db`:
`{u["id"]: deserialize_user(u) for u in json.loads(text)}`.  A non-array
value makes the comprehension raise (indexing a dict key, a character or a
non-iterable with `["id"]`), except for the vacuous empty-dict and
empty-string iterations, which yield an empty map. -/
def decodeParticipants : Json → Option (List UserRec)
  | .arr xs => xs.mapM decodeUser
  | .obj [] => some []
  | .obj (_ :: _) => none
  | .str s => if s.isEmpty then some [] else none
  | _ => none

/-- The `winners` deserialization: `json.loads` of a JSON object yields a
string-keyed dict.  Prize values are prize-name strings throughout the
program; other value shapes are not modelled. -/
def decodeWinners : Json → Option (List (PyKey × String))
  | .obj fields => fields.mapM (fun f =>
      match f.2 with
      | .str v => some (PyKey.strKey f.1, v)
      | _ => none)
  | _ => none

/-- The `claimed_winners` deserialization: `set(json.loads(text))` over the
array of integer user ids the program writes; other shapes are not
modelled (an un-iterable value raises). -/
def decodeClaimed : Json → Option (List Int)
  | .arr xs => xs.mapM (fun x => match x with | .int n => some n | _ => none)
  | _ => none

/-- `db.py` `save_state_to_db` (upsert of the single row): participants as
a JSON array of serialized users (dict values in insertion order), winners
via `json.dumps` (object keys become strings), claimed winners as
`list(claimed_winners)`, scalars copied. -/
def save_state_to_db (s : EngineState) : GiveawayStateRow :=
  { participants := some (.arr (s.participants.map (fun kv => encodeUser kv.2)))
    winners := some (.obj (s.winners.map (fun kv => (pyKeyString kv.1, .str kv.2))))
    claimedWinners := some (.arr (s.claimedWinners.map Json.int))
    giveawayMessageId := s.giveawayMessageId
    giveawayChatId := s.giveawayChatId
    giveawayHasImage := some s.giveawayHasImage
    currentContestId := s.currentContestId }

/-- `db.py` `load_state_from_db`: when no row exists, the empty state; when
a row exists, deserialize the three JSON columns (a NULL column is read as
`result[i] or defaultText`), rebuilding the participant map keyed by
`u["id"]` and reading `bool(result[5])` (NULL → false); any deserialization
failure is caught by the surrounding `except` and degrades to the empty
state instead of raising. -/
def load_state_from_db (row : Option GiveawayStateRow) : EngineState :=
  match row with
  | none => emptyEngineState
  | some r =>
    match decodeParticipants (r.participants.getD (.arr [])),
          decodeWinners (r.winners.getD (.obj [])),
          decodeClaimed (r.claimedWinners.getD (.arr [])) with
    | some ps, some ws, some cs =>
      { participants := ps.map (fun u => (u.id, u))
        winners := ws
        claimedWinners := cs
        giveawayMessageId := r.giveawayMessageId
        giveawayChatId := r.giveawayChatId
        giveawayHasImage := r.giveawayHasImage.getD false
        currentContestId := r.currentContestId }
    | _, _, _ => emptyEngineState

/-- A row of the `contests` table, as returned by `get_contest_by_id`. -/
structure Contest where
  name : String
  duration : Nat
  winnersCount : Nat
  prizes : List String
  imageUrl : Option String
deriving Repr, DecidableEq

/-- The background task created by
`asyncio.create_task(end_giveaway(contest.duration, contest.winners_count,
contest.prizes))`: it captures those three arguments at creation and runs
`end_giveaway` against the then-current globals when its sleep elapses. -/
structure TimerTask where
  duration : Nat
  winnersCount : Nat
  prizes : List String
deriving Repr, DecidableEq

/-- Observable calls the handlers make on the messaging collaborator.
Message edits are modelled as always succeeding: `bot.edit_message_text` /
`edit_message_caption` are external calls whose failure behaviour is not
part of this repository; the event records the attempt and its target. -/
inductive BotEvent where
  | editNobodyJoined (chatId messageId : Option Int) : BotEvent
  | editWinnersAnnouncement (chatId messageId : Option Int) (winnerIds : List Int) : BotEvent
  | editCancelledNotice (chatId messageId : Option Int) : BotEvent
  | announcePosted (chatId messageId : Int) : BotEvent
  | claimInsertNullContest : BotEvent
deriving Repr, DecidableEq

/-- The world a trace runs in: the engine globals, the `contests` catalog,
the `prize_claims` table, the created-and-not-yet-fired `end_giveaway`
tasks (in creation order), the emitted messaging events, and a counter for
fresh message ids. -/
structure World where
  engine : EngineState
  contests : List (Int × Contest)
  prizeClaims : List PrizeClaimRow
  pendingTimers : List TimerTask
  events : List BotEvent
  nextMessageId : Int
deriving Repr, DecidableEq

/-- Replies of the admin command handlers. -/
inductive CommandReply where
  | notAuthorizedChat
  | adminsOnly
  | alreadyRunningReply
  | contestNotFound
  | noActiveGiveaway
  | started (contestId : Int)
  | cancelledOk (name : String)
deriving Repr, DecidableEq

/-- Replies of the join button callback. -/
inductive JoinReply where
  | notAuthorizedChat
  | botsRejected
  | joined
  | alreadyParticipating
deriving Repr, DecidableEq

/-- `giveaway_bot.py` `is_giveaway_running`: the phase test is
`current_contest_id is not None`. -/
def is_giveaway_running (s : EngineState) : Bool :=
  s.currentContestId.isSome

/-- `giveaway_bot.py` `join_callback`: unauthorized chats and bot accounts
are rejected; a new user id is inserted into the participant dict; an
existing one leaves it unchanged and is told it already participates.
(The trailing `save_state_to_db()` persists but does not mutate.) -/
def join_callback (w : World) (chatAllowed : Bool) (u : UserRec) : World × JoinReply :=
  if !chatAllowed then (w, .notAuthorizedChat)
  else if u.isBot then (w, .botsRejected)
  else if (w.engine.participants.lookup u.id).isNone then
    ({ w with engine := { w.engine with participants := w.engine.participants ++ [(u.id, u)] } },
     .joined)
  else (w, .alreadyParticipating)

/-- Posting the giveaway announcement (`_send_giveaway_message` +
recording `sent_msg.message_id` / `sent_msg.chat.id`): allocates a fresh
message id in the command's chat.  Image downloading is peripheral; the
no-image path is modelled (`giveaway_has_image` was just reset to false). -/
def postAnnouncement (w : World) (chatId : Int) : World × Int :=
  ({ w with events := w.events ++ [.announcePosted chatId w.nextMessageId]
            nextMessageId := w.nextMessageId + 1 },
   w.nextMessageId)

/-- The state reset shared by `start_giveaway_command` (inline) and
`_initialize_giveaway_state`: clear participants, winners and the claimed
set, set the active contest id, reset the image flag.  The announcement
coordinates are not touched here. -/
def clearForStart (s : EngineState) (contestId : Int) : EngineState :=
  { s with participants := [], winners := [], claimedWinners := []
           currentContestId := some contestId, giveawayHasImage := false }

/-- `giveaway_bot.py` `start_giveaway_command`: whitelist check, then the
`is_giveaway_running` guard (reject, state untouched), then the admin
check, then contest lookup; on success it clears the lifecycle state, posts
the announcement, records its coordinates in the globals, persists, and
creates the `end_giveaway` task.  Argument parsing is peripheral, so the
contest id arrives parsed. -/
def start_giveaway_command (w : World) (chatAllowed isAdmin : Bool) (chatId contestId : Int) :
    World × CommandReply :=
  if !chatAllowed then (w, .notAuthorizedChat)
  else if is_giveaway_running w.engine then (w, .alreadyRunningReply)
  else if !isAdmin then (w, .adminsOnly)
  else
    match w.contests.lookup contestId with
    | none => (w, .contestNotFound)
    | some c =>
      let posted := postAnnouncement { w with engine := clearForStart w.engine contestId } chatId
      ({ posted.1 with
          engine := { posted.1.engine with
            giveawayMessageId := some posted.2, giveawayChatId := some chatId }
          pendingTimers := posted.1.pendingTimers ++
            [{ duration := c.duration, winnersCount := c.winnersCount, prizes := c.prizes }] },
       .started contestId)

/-- `giveaway_bot.py` `contest_command` (the `/contest` alias): whitelist
check, admin check, contest lookup, then `_initialize_giveaway_state` and
the same announcement/timer tail — with no `is_giveaway_running` guard
anywhere.  Its `giveaway_message_id = sent_msg.message_id` and
`giveaway_chat_id = sent_msg.chat.id` assignments carry no `global`
declaration, so they bind function locals and the global announcement
coordinates keep their previous values. -/
def contest_command (w : World) (chatAllowed isAdmin : Bool) (chatId contestId : Int) :
    World × CommandReply :=
  if !chatAllowed then (w, .notAuthorizedChat)
  else if !isAdmin then (w, .adminsOnly)
  else
    match w.contests.lookup contestId with
    | none => (w, .contestNotFound)
    | some c =>
      let posted := postAnnouncement { w with engine := clearForStart w.engine contestId } chatId
      ({ posted.1 with
          pendingTimers := posted.1.pendingTimers ++
            [{ duration := c.duration, winnersCount := c.winnersCount, prizes := c.prizes }] },
       .started contestId)

/-- `giveaway_bot.py` `cancel_giveaway_command`: whitelist check, admin
check, `is_giveaway_running` guard, contest lookup; then it edits the
announcement with the cancellation notice, clears every engine global and
persists.  The `end_giveaway` task created at start time is NOT cancelled:
no handle to it is kept and no `task.cancel()` is ever called, so
`pendingTimers` is left untouched. -/
def cancel_giveaway_command (w : World) (chatAllowed isAdmin : Bool) : World × CommandReply :=
  if !chatAllowed then (w, .notAuthorizedChat)
  else if !isAdmin then (w, .adminsOnly)
  else if !is_giveaway_running w.engine then (w, .noActiveGiveaway)
  else
    match (w.engine.currentContestId.bind (fun cid => w.contests.lookup cid)),
          w.engine.currentContestId with
    | some c, some _ =>
      ({ w with
          engine := emptyEngineState
          events := w.events ++ [.editCancelledNotice w.engine.giveawayChatId w.engine.giveawayMessageId] },
       .cancelledOk c.name)
    | _, _ => (w, .contestNotFound)

/-- The prize paired with the i-th (0-based) selected winner in
`end_giveaway`: `prizes[i] if i < len(prizes) else f"Prize {position}"`,
with position = i + 1. -/
def prizeNameAt (prizes : List String) (i : Nat) : String :=
  match prizes.get? i with
  | some pr => pr
  | none => "Prize " ++ toString (i + 1)

/-- The winner-selection and prize-assignment core of `end_giveaway`
(`giveaway_bot.py` lines 633-644): clamp the winner count to the
participant count, sample that many participants with
`secrets.SystemRandom().sample`, and pair the i-th selected winner with
position i+1 and prize `prizes[i]` (or the synthesized `Prize <position>`
name when the contest has fewer prizes).  The sampler is an explicit
parameter standing for the cryptographically strong random source; its
contract (`sample` returns `k` distinct members of the population) is a
hypothesis of the theorems about this function. -/
def draw_assignments (participantsVals : List UserRec) (winnersCount : Nat)
    (prizes : List String) (sample : List UserRec → Nat → List UserRec) :
    List (Nat × UserRec × String) :=
  let wc := min winnersCount participantsVals.length
  let selected := sample participantsVals wc
  selected.enum.map (fun p => (p.1 + 1, p.2, prizeNameAt prizes p.1))

/-- One `end_giveaway` task body running after its sleep, against the
globals at fire time.  Empty participants: edit the announcement to the
nobody-joined notice, clear the lifecycle globals, persist.  Otherwise:
draw winners (`draw_assignments`), insert one `prize_claims` row per
winner via `assign_winner_to_prize_position` under the CURRENT value of
`current_contest_id` (were it `None`, the NOT NULL insert would raise,
recorded as `claimInsertNullContest`), rebuild the in-memory winners map
keyed by integer user id, edit the announcement with the winner list,
clear the lifecycle globals, persist. -/
def end_giveaway_fire (w : World) (now : Nat) (t : TimerTask)
    (sample : List UserRec → Nat → List UserRec)
    (randomBytes : Nat → List Nat) : World :=
  if w.engine.participants.isEmpty then
    { w with
        engine := { w.engine with currentContestId := none, giveawayMessageId := none,
                                  giveawayChatId := none, giveawayHasImage := false }
        events := w.events ++ [.editNobodyJoined w.engine.giveawayChatId w.engine.giveawayMessageId] }
  else
    match w.engine.currentContestId with
    | none => { w with events := w.events ++ [.claimInsertNullContest] }
    | some cid =>
      let assignments := draw_assignments (w.engine.participants.map (fun kv => kv.2))
        t.winnersCount t.prizes sample
      let claims := assignments.foldl
        (fun db a => assign_winner_to_prize_position db now cid a.1 a.2.1.id (randomBytes a.1)) w.prizeClaims
      { w with
          engine := { w.engine with
            winners := assignments.map (fun a => (PyKey.intKey a.2.1.id, a.2.2))
            currentContestId := none, giveawayMessageId := none,
            giveawayChatId := none, giveawayHasImage := false }
          prizeClaims := claims
          events := w.events ++
            [.editWinnersAnnouncement w.engine.giveawayChatId w.engine.giveawayMessageId
              (assignments.map (fun a => a.2.1.id))] }

/-- The i-th pending timer firing: runs its body and removes it from the
pending list. -/
def fire_pending_timer (w : World) (i : Nat) (now : Nat)
    (sample : List UserRec → Nat → List UserRec)
    (randomBytes : Nat → List Nat) : World :=
  match w.pendingTimers.get? i with
  | none => w
  | some t =>
    let w2 := end_giveaway_fire w now t sample randomBytes
    { w2 with pendingTimers := w.pendingTimers.eraseIdx i }

/-! Helper lemmas. -/

theorem hexDigit_lower : ∀ n, n < 16 → isLowerHexDigit (hexDigit n) = true := by
  decide

theorem tokenHexChars_length (bs : List Nat) : (tokenHexChars bs).length = 2 * bs.length := by
  induction bs with
  | nil => rfl
  | cons b t ih => simp [tokenHexChars, byteHexChars, ih]; omega

theorem tokenHexChars_lower (bs : List Nat) (hb : ∀ b ∈ bs, b < 256) :
    ∀ c ∈ tokenHexChars bs, isLowerHexDigit c = true := by
  induction bs with
  | nil => intro c hc; simp [tokenHexChars] at hc
  | cons b t ih =>
    intro c hc
    rw [tokenHexChars, List.mem_append] at hc
    rcases hc with hc | hc
    · have hb0 : b < 256 := hb b (List.mem_cons_self b t)
      have hdiv : b / 16 < 16 := by
        rw [Nat.div_lt_iff_lt_mul (by norm_num)]
        omega
      have hmod : b % 16 < 16 := Nat.mod_lt b (by norm_num)
      simp only [byteHexChars, List.mem_cons, List.not_mem_nil, or_false] at hc
      rcases hc with rfl | rfl
      · exact hexDigit_lower _ hdiv
      · exact hexDigit_lower _ hmod
    · exact ih (fun x hx => hb x (List.mem_cons_of_mem b hx)) c hc

theorem lookup_append_single {α β : Type} [BEq α] [LawfulBEq α] (l : List (α × β)) (k : α)
    (v : β) (h : l.lookup k = none) : (l ++ [(k, v)]).lookup k = some v := by
  induction l with
  | nil => simp [List.lookup]
  | cons a t ih =>
    obtain ⟨ka, va⟩ := a
    rw [List.cons_append]
    rw [List.lookup] at h ⊢
    cases hk : (k == ka) with
    | true => rw [hk] at h; exact Option.noConfusion h
    | false => rw [hk] at h; exact ih h

theorem take_sampler_contract (l : List UserRec) (k : Nat) (hk : k ≤ l.length)
    (hnd : l.Nodup) :
    (l.take k).length = k ∧ (l.take k).Nodup ∧ ∀ x ∈ l.take k, x ∈ l := by
  refine ⟨?_, hnd.sublist (List.take_sublist k l), fun x hx => List.mem_of_mem_take hx⟩
  rw [l.length_take k]
  omega

theorem is_safe_link_iff (s : String) :
    is_safe_link s = true ↔
      (strStartsWith s "https://" = true ∨ strStartsWith s "t.me/" = true ∨
       strStartsWith s "tg://" = true) := by
  unfold is_safe_link
  by_cases hemp : s.isEmpty
  · have hs : s = "" := (String.isEmpty_iff s).mp hemp
    subst hs
    simp [strStartsWith, List.isPrefixOf]
  · simp only [hemp, Bool.false_eq_true, if_false, Bool.or_eq_true]
    tauto

/-! Theorems settling the claims. -/

/-- C1: the claim states that a prize-claim row created by the draw starts
unclaimed (`claimed_at` NULL) and transitions to non-null only through
`mark_prize_as_claimed`.  The code contradicts it: the DDL default
`claimed_at TIMESTAMP DEFAULT CURRENT_TIMESTAMP` fills the omitted column
at insert time, so the row produced by `assign_winner_to_prize_position`
is born with `claimed_at = now`, and the conditional update of
`mark_prize_as_claimed` (WHERE `claimed_at IS NULL`) then matches zero
rows and reports no transition. -/
theorem c1_claim_row_created_already_claimed :
    (assign_winner_to_prize_position [] 100 1 1 42 (List.replicate 16 171)).map
        (fun r => r.claimedAt) = [some 100] ∧
    mark_prize_as_claimed (assign_winner_to_prize_position [] 100 1 1 42 (List.replicate 16 171))
        200 1 42
      = (assign_winner_to_prize_position [] 100 1 1 42 (List.replicate 16 171), false) := by
  exact ⟨by decide, by decide⟩

/-- C2: the claim states that after `cancel_giveaway_command` completes,
the countdown task armed by the start command never performs any draw
step.  The code contradicts it: the handler never cancels the
`asyncio.create_task(end_giveaway(...))` task, so in the execution below
(start contest 1 for 5s, one join, cancel, start contest 2 for 3600s, one
join, then the first task's sleep elapses) the cancelled giveaway's timer
fires, writes a prize-claim row under contest 2, announces a winner by
editing contest 2's announcement, and tears the live giveaway down —
a completed `Cancel` followed by a completed `Draw`. -/
theorem c2_cancel_leaves_timer_armed :
    let u1 : UserRec := ⟨1, "A", none, none, none, false⟩
    let u2 : UserRec := ⟨2, "B", none, none, none, false⟩
    let g1 : Contest := ⟨"First", 5, 1, ["P1"], none⟩
    let g2 : Contest := ⟨"Second", 3600, 1, ["P2"], none⟩
    let w0 : World := ⟨emptyEngineState, [(1, g1), (2, g2)], [], [], [], 100⟩
    let w1 := (start_giveaway_command w0 true true 20 1).1
    let w2 := (join_callback w1 true u1).1
    let r3 := cancel_giveaway_command w2 true true
    let w4 := (start_giveaway_command r3.1 true true 20 2).1
    let w5 := (join_callback w4 true u2).1
    let w6 := fire_pending_timer w5 0 999 (fun l k => l.take k) (fun _ => List.replicate 16 171)
    (is_giveaway_running w2.engine = true ∧ r3.2 = .cancelledOk "First" ∧
      r3.1.engine = emptyEngineState) ∧
    r3.1.pendingTimers = [⟨5, 1, ["P1"]⟩] ∧
    w6.prizeClaims.map (fun r => (r.contestId, r.position, r.winnerUserId)) = [(2, 1, 2)] ∧
    w6.events.getLast? = some (.editWinnersAnnouncement (some 20) (some 101) [2]) ∧
    w6.engine.winners = [(.intKey 2, "P1")] := by
  decide

/-- C3: the claim states that saving the engine state and loading it back
reproduces the same winner map (same keys, same values).  The code
contradicts it: `end_giveaway` builds `winners` keyed by integer user ids,
`json.dumps` writes those keys as JSON object keys (strings), and
`json.loads` keeps them as strings — so the reloaded map is keyed by
`"123"` instead of `123`, and the membership tests the bot performs on it
(`user_id in winners`) silently fail after a restart. -/
theorem c3_roundtrip_winner_keys_become_strings :
    load_state_from_db (some (save_state_to_db
        ⟨[(7, ⟨7, "Ann", none, none, none, false⟩)], [(.intKey 123, "Gift A")], [123],
         some 10, some 20, false, some 1⟩)) ≠
      ⟨[(7, ⟨7, "Ann", none, none, none, false⟩)], [(.intKey 123, "Gift A")], [123],
       some 10, some 20, false, some 1⟩ ∧
    (load_state_from_db (some (save_state_to_db
        ⟨[(7, ⟨7, "Ann", none, none, none, false⟩)], [(.intKey 123, "Gift A")], [123],
         some 10, some 20, false, some 1⟩))).winners = [(.strKey "123", "Gift A")] := by
  exact ⟨by decide, by decide⟩

/-- C4: the claim states that every entry point starting a giveaway
rejects with AlreadyRunning while one is active and leaves state
untouched.  The code contradicts it for the `/contest` alias: with contest
1 open and one participant joined, `start_giveaway_command` correctly
rejects and changes nothing, but `contest_command` performs no
`is_giveaway_running` check, reports success, overwrites the active
contest id with 2 and clears the participant map. -/
theorem c4_contest_alias_bypasses_running_guard :
    let u5 : UserRec := ⟨5, "Eve", none, none, none, false⟩
    let c1 : Contest := ⟨"First", 60, 1, ["A"], none⟩
    let c2 : Contest := ⟨"Second", 60, 1, ["B"], none⟩
    let w : World := ⟨⟨[(5, u5)], [(.intKey 5, "A")], [5], some 10, some 20, false, some 1⟩,
      [(1, c1), (2, c2)], [], [⟨60, 1, ["A"]⟩], [], 11⟩
    start_giveaway_command w true true 20 2 = (w, .alreadyRunningReply) ∧
    (contest_command w true true 20 2).2 = .started 2 ∧
    (contest_command w true true 20 2).1.engine.currentContestId = some 2 ∧
    (contest_command w true true 20 2).1.engine.participants = [] := by
  refine ⟨?_, ?_, ?_, ?_⟩ <;> decide

/-- C5: the claim states that for a winner holding one unclaimed prize
claim, the first `/claim` succeeds and the second reports AlreadyClaimed
with a zero-row conditional update.  The code contradicts it already at
the first call: the row `assign_winner_to_prize_position` writes is born
with a non-null `claimed_at` (column default), so
`get_latest_unclaimed_prize_for_user` finds nothing and the very first
`claim_command` replies that there are no unclaimed prizes, never reaching
`mark_prize_as_claimed`. -/
theorem c5_first_claim_already_blocked :
    claim_command [⟨1, 1, "Gift A", "text", "Gift A"⟩]
        (assign_winner_to_prize_position [] 100 1 1 42 (List.replicate 16 171)) 42 200 true
      = (assign_winner_to_prize_position [] 100 1 1 42 (List.replicate 16 171),
         ClaimReply.noUnclaimedPrizes) := by
  decide

/-- C6: for every draw over participants with configured winner count, the
winner count is clamped to `min` before sampling (the sampler is invoked
at the clamped size and the selection is exactly its output), exactly that
many distinct participants are selected (no one twice), and they receive
prize positions 1..min in selection order.  The cryptographically strong
source (`secrets.SystemRandom().sample`) is modelled by the abstract
sampler constrained to the `random.sample` contract. -/
theorem c6_draw_clamps_before_sampling (participantsVals : List UserRec) (winnersCount : Nat)
    (prizes : List String) (sample : List UserRec → Nat → List UserRec)
    (hnd : participantsVals.Nodup)
    (hsample : ∀ (l : List UserRec) (k : Nat), k ≤ l.length → l.Nodup →
      (sample l k).length = k ∧ (sample l k).Nodup ∧ ∀ x ∈ sample l k, x ∈ l) :
    (draw_assignments participantsVals winnersCount prizes sample).length
        = min winnersCount participantsVals.length ∧
    (draw_assignments participantsVals winnersCount prizes sample).map (fun t => t.2.1)
        = sample participantsVals (min winnersCount participantsVals.length) ∧
    ((draw_assignments participantsVals winnersCount prizes sample).map (fun t => t.2.1)).Nodup ∧
    (∀ x ∈ (draw_assignments participantsVals winnersCount prizes sample).map (fun t => t.2.1),
       x ∈ participantsVals) ∧
    (draw_assignments participantsVals winnersCount prizes sample).map (fun t => t.1)
        = (List.range (min winnersCount participantsVals.length)).map (fun i => i + 1) := by
  obtain ⟨hlen, hndup, hmem⟩ :=
    hsample participantsVals (min winnersCount participantsVals.length)
      (Nat.min_le_right _ _) hnd
  have hsnd : (draw_assignments participantsVals winnersCount prizes sample).map (fun t => t.2.1)
      = sample participantsVals (min winnersCount participantsVals.length) := by
    simp only [draw_assignments, List.map_map]
    have heq : ((fun (t : Nat × UserRec × String) => t.2.1) ∘
        (fun (p : Nat × UserRec) => ((p.1 + 1 : Nat), p.2, prizeNameAt prizes p.1)))
        = Prod.snd := by
      funext p; rfl
    rw [heq, List.enum_map_snd]
  refine ⟨?_, hsnd, ?_, ?_, ?_⟩
  · simp only [draw_assignments, List.length_map, List.enum_length]
    exact hlen
  · rw [hsnd]; exact hndup
  · rw [hsnd]; exact hmem
  · simp only [draw_assignments, List.map_map]
    have heq : ((fun (t : Nat × UserRec × String) => t.1) ∘
        (fun (p : Nat × UserRec) => ((p.1 + 1 : Nat), p.2, prizeNameAt prizes p.1))) =
        ((fun i => i + 1) ∘ Prod.fst) := by
      funext p; rfl
    rw [heq, ← List.map_map, List.enum_map_fst, hlen]

/-- C6 witness: the theorem applied to three concrete participants, five
requested winners, one prize and the take-first sampler (one possible
output of the random sampler). -/
theorem c6_draw_witness :
    (draw_assignments [⟨1, "A", none, none, none, false⟩, ⟨2, "B", none, none, none, false⟩,
        ⟨3, "C", none, none, none, false⟩] 5 ["Gift A"] (fun l k => l.take k)).length
      = min 5 ([⟨1, "A", none, none, none, false⟩, ⟨2, "B", none, none, none, false⟩,
        (⟨3, "C", none, none, none, false⟩ : UserRec)].length) ∧
    (draw_assignments [⟨1, "A", none, none, none, false⟩, ⟨2, "B", none, none, none, false⟩,
        ⟨3, "C", none, none, none, false⟩] 5 ["Gift A"] (fun l k => l.take k)).map (fun t => t.2.1)
      = (fun (l : List UserRec) (k : Nat) => l.take k)
          [⟨1, "A", none, none, none, false⟩, ⟨2, "B", none, none, none, false⟩,
           ⟨3, "C", none, none, none, false⟩]
          (min 5 ([⟨1, "A", none, none, none, false⟩, ⟨2, "B", none, none, none, false⟩,
            (⟨3, "C", none, none, none, false⟩ : UserRec)].length)) ∧
    ((draw_assignments [⟨1, "A", none, none, none, false⟩, ⟨2, "B", none, none, none, false⟩,
        ⟨3, "C", none, none, none, false⟩] 5 ["Gift A"] (fun l k => l.take k)).map
        (fun t => t.2.1)).Nodup ∧
    (∀ x ∈ (draw_assignments [⟨1, "A", none, none, none, false⟩,
        ⟨2, "B", none, none, none, false⟩,
        ⟨3, "C", none, none, none, false⟩] 5 ["Gift A"] (fun l k => l.take k)).map
        (fun t => t.2.1),
      x ∈ [⟨1, "A", none, none, none, false⟩, ⟨2, "B", none, none, none, false⟩,
        (⟨3, "C", none, none, none, false⟩ : UserRec)]) ∧
    (draw_assignments [⟨1, "A", none, none, none, false⟩, ⟨2, "B", none, none, none, false⟩,
        ⟨3, "C", none, none, none, false⟩] 5 ["Gift A"] (fun l k => l.take k)).map (fun t => t.1)
      = (List.range (min 5 ([⟨1, "A", none, none, none, false⟩,
        ⟨2, "B", none, none, none, false⟩,
        (⟨3, "C", none, none, none, false⟩ : UserRec)].length))).map (fun i => i + 1) :=
  c6_draw_clamps_before_sampling [⟨1, "A", none, none, none, false⟩,
      ⟨2, "B", none, none, none, false⟩, ⟨3, "C", none, none, none, false⟩]
    5 ["Gift A"] (fun l k => l.take k)
    (by decide) (fun l k hk hnd => take_sampler_contract l k hk hnd)

/-- C7: loading the snapshot never raises: with no row the default empty
state is returned; with a row whose stored fields fail to deserialize the
default empty state is returned (the `except` path); with a row that
deserializes the loaded state is exactly the decoded fields.  Being a
total Lean function, `load_state_from_db` returns in every case. -/
theorem c7_load_degrades_to_default (row : Option GiveawayStateRow) :
    (row = none → load_state_from_db row = emptyEngineState) ∧
    (∀ r, row = some r →
      (decodeParticipants (r.participants.getD (.arr [])) = none ∨
       decodeWinners (r.winners.getD (.obj [])) = none ∨
       decodeClaimed (r.claimedWinners.getD (.arr [])) = none) →
      load_state_from_db row = emptyEngineState) ∧
    (∀ r ps ws cs, row = some r →
      decodeParticipants (r.participants.getD (.arr [])) = some ps →
      decodeWinners (r.winners.getD (.obj [])) = some ws →
      decodeClaimed (r.claimedWinners.getD (.arr [])) = some cs →
      load_state_from_db row =
        { participants := ps.map (fun u => (u.id, u)),
          winners := ws,
          claimedWinners := cs,
          giveawayMessageId := r.giveawayMessageId,
          giveawayChatId := r.giveawayChatId,
          giveawayHasImage := r.giveawayHasImage.getD false,
          currentContestId := r.currentContestId }) := by
  refine ⟨?_, ?_, ?_⟩
  · rintro rfl; rfl
  · rintro r rfl hfail
    rcases hp : decodeParticipants (r.participants.getD (.arr [])) with _ | ps <;>
      rcases hw : decodeWinners (r.winners.getD (.obj [])) with _ | ws <;>
        rcases hc : decodeClaimed (r.claimedWinners.getD (.arr [])) with _ | cs <;>
          simp [load_state_from_db, hp, hw, hc] at hfail ⊢
  · rintro r ps ws cs rfl hp hw hc
    simp [load_state_from_db, hp, hw, hc]

/-- C7 witness: a row whose participants column holds the JSON number 5 —
iterating it raises in the source, so loading degrades to the empty
state. -/
theorem c7_load_witness :
    load_state_from_db (some (⟨some (.int 5), some (.obj []), some (.arr []),
      some 10, some 20, some false, some 1⟩ : GiveawayStateRow)) = emptyEngineState :=
  (c7_load_degrades_to_default _).2.1 _ rfl (Or.inl rfl)

/-- C8: joining is idempotent — whenever a first join succeeds with the
joined reply, a second join by the same user leaves the whole world (in
particular the participant map) unchanged and replies that the user is
already participating. -/
theorem c8_join_idempotent (w : World) (chatAllowed : Bool) (u : UserRec)
    (h : (join_callback w chatAllowed u).2 = JoinReply.joined) :
    join_callback (join_callback w chatAllowed u).1 chatAllowed u
      = ((join_callback w chatAllowed u).1, JoinReply.alreadyParticipating) := by
  unfold join_callback at h ⊢
  by_cases hca : chatAllowed
  · by_cases hbot : u.isBot
    · simp [hca, hbot] at h
    · by_cases hlk : (w.engine.participants.lookup u.id).isNone
      · have hnone : w.engine.participants.lookup u.id = none :=
          Option.isNone_iff_eq_none.mp hlk
        have hlk2 : ((w.engine.participants ++ [(u.id, u)]).lookup u.id) = some u :=
          lookup_append_single _ _ _ hnone
        simp [hca, hbot, hlk, hlk2]
      · simp [hca, hbot, hlk] at h
  · simp [hca] at h

/-- C8 witness: user 3 joins an empty world, then joins again. -/
theorem c8_join_witness :
    join_callback (join_callback ⟨emptyEngineState, [], [], [], [], 0⟩ true
        ⟨3, "Cat", none, none, none, false⟩).1 true ⟨3, "Cat", none, none, none, false⟩
      = ((join_callback ⟨emptyEngineState, [], [], [], [], 0⟩ true
          ⟨3, "Cat", none, none, none, false⟩).1, JoinReply.alreadyParticipating) :=
  c8_join_idempotent ⟨emptyEngineState, [], [], [], [], 0⟩ true
    ⟨3, "Cat", none, none, none, false⟩ (by decide)

/-- C9: every prize-claim row written at draw time stores as its security
code the hex encoding of the 16 random bytes: a 32-character lowercase
hexadecimal string, in particular never empty. -/
theorem c9_security_code_hex32 (db : List PrizeClaimRow) (now : Nat) (contestId : Int)
    (position : Nat) (userId : Int) (bytes : List Nat)
    (hlen : bytes.length = 16) (hb : ∀ b ∈ bytes, b < 256) :
    ∃ r, assign_winner_to_prize_position db now contestId position userId bytes = db ++ [r] ∧
      r.securityCode.length = 32 ∧
      r.securityCode.data.all isLowerHexDigit = true ∧
      r.securityCode ≠ "" := by
  refine ⟨_, rfl, ?_, ?_, ?_⟩
  · show (tokenHex bytes).length = 32
    have h1 : (tokenHex bytes).length = (tokenHexChars bytes).length := rfl
    rw [h1, tokenHexChars_length, hlen]
  · show (tokenHex bytes).data.all isLowerHexDigit = true
    rw [List.all_eq_true]
    intro c hc
    exact tokenHexChars_lower bytes hb c hc
  · show tokenHex bytes ≠ ""
    intro hemp
    have h1 : (tokenHex bytes).length = 32 := by
      have h2 : (tokenHex bytes).length = (tokenHexChars bytes).length := rfl
      rw [h2, tokenHexChars_length, hlen]
    rw [hemp] at h1
    exact absurd h1 (by decide)

/-- C9 witness: the insert with 16 concrete bytes. -/
theorem c9_security_code_witness :
    ∃ r, assign_winner_to_prize_position [] 100 1 1 42 (List.replicate 16 171) = [] ++ [r] ∧
      r.securityCode.length = 32 ∧
      r.securityCode.data.all isLowerHexDigit = true ∧
      r.securityCode ≠ "" :=
  c9_security_code_hex32 [] 100 1 1 42 (List.replicate 16 171) (by decide) (by decide)

/-- C10: every prize slot materialized by `create_contest_prizes` has kind
"link" exactly when its stored value starts with one of the prefixes
https://, t.me/ or tg://; any other value (including http:// URLs and the
empty string) gets kind "text". -/
theorem c10_prize_kind_iff_safe_prefix (contestId : Int) (prizesList : List String) :
    ∀ row ∈ create_contest_prizes contestId prizesList,
      ((row.prizeType = "link" ↔
        (strStartsWith row.prizeValue "https://" = true ∨
         strStartsWith row.prizeValue "t.me/" = true ∨
         strStartsWith row.prizeValue "tg://" = true)) ∧
       (row.prizeType = "link" ∨ row.prizeType = "text")) := by
  intro row hrow
  rw [create_contest_prizes, List.mem_map] at hrow
  obtain ⟨p, hp, rfl⟩ := hrow
  constructor
  · show prizeTypeFor p.2 = "link" ↔ _
    rw [← is_safe_link_iff]
    unfold prizeTypeFor
    cases h : is_safe_link p.2 with
    | true => simp
    | false => simp
  · show prizeTypeFor p.2 = "link" ∨ prizeTypeFor p.2 = "text"
    unfold prizeTypeFor
    cases h : is_safe_link p.2 with
    | true => left; rfl
    | false => right; rfl

/-- C10 witness: the single slot created for the prize list containing one
https URL. -/
theorem c10_prize_kind_witness :
    (((⟨1, 1, "https://x", "link", "https://x"⟩ : ContestPrizeRow).prizeType = "link" ↔
      (strStartsWith (⟨1, 1, "https://x", "link", "https://x"⟩ : ContestPrizeRow).prizeValue
          "https://" = true ∨
       strStartsWith (⟨1, 1, "https://x", "link", "https://x"⟩ : ContestPrizeRow).prizeValue
          "t.me/" = true ∨
       strStartsWith (⟨1, 1, "https://x", "link", "https://x"⟩ : ContestPrizeRow).prizeValue
          "tg://" = true)) ∧
     ((⟨1, 1, "https://x", "link", "https://x"⟩ : ContestPrizeRow).prizeType = "link" ∨
      (⟨1, 1, "https://x", "link", "https://x"⟩ : ContestPrizeRow).prizeType = "text")) :=
  c10_prize_kind_iff_safe_prefix 1 ["https://x"] ⟨1, 1, "https://x", "link", "https://x"⟩
    (by decide)

end GiftGiver
